import Mathlib

/-!
Verification of the SlytherNN snake simulator and training-loop glue.
The definitions below are a shallow embedding of `src/snake_game/game.py`
and the relevant parts of `src/train.py`.  Grid cells are pairs of
integers (Python tuples of ints), rewards are rationals (Python floats
used only as exact constants), and the random fruit placement is
modelled by an explicit oracle / proposal stream.
-/

namespace SlytherNN

abbrev Pos := Int × Int

/-- Embedding of class `Snake` from `src/snake_game/game.py`. -/
structure Snake where
  grid_size : Nat
  body : List Pos
  direction : Pos
  grow : Bool
deriving DecidableEq

/-- Embedding of `Snake.__init__`: three body cells centred on the grid, moving right. -/
def Snake.init (grid_size : Nat) : Snake :=
  { grid_size := grid_size
  , body := [((grid_size : Int) / 2, (grid_size : Int) / 2),
             ((grid_size : Int) / 2 - 1, (grid_size : Int) / 2),
             ((grid_size : Int) / 2 - 2, (grid_size : Int) / 2)]
  , direction := (1, 0)
  , grow := false }

/-- Embedding of `Snake.head`: `self.body[0]` (the body is never empty in any
reachable state; `headI` supplies the junk value `(0,0)` on `[]`). -/
def Snake.head (s : Snake) : Pos := s.body.headI

/-- Embedding of `Snake.move`: prepend the new head; keep the tail when the
`grow` flag is set (clearing it), otherwise drop the last cell. -/
def Snake.move (s : Snake) : Snake :=
  let new_head : Pos := (s.head.1 + s.direction.1, s.head.2 + s.direction.2)
  if s.grow then
    { s with body := new_head :: s.body, grow := false }
  else
    { s with body := new_head :: s.body.dropLast }

/-- Embedding of `Snake.set_direction`: ignore a request that is the exact
opposite of the current direction, otherwise store it. -/
def Snake.set_direction (s : Snake) (d : Pos) : Snake :=
  if d = (-s.direction.1, -s.direction.2) then s
  else { s with direction := d }

/-- Embedding of `Snake.grow_snake`: set the deferred-growth flag. -/
def Snake.grow_snake (s : Snake) : Snake := { s with grow := true }

/-- Embedding of `Snake.collided_with_self`: `self.body[0] in self.body[1:]`. -/
def Snake.collided_with_self (s : Snake) : Bool := decide (s.head ∈ s.body.tail)

/-- Embedding of `Snake.collided_with_wall`: head outside `[0, grid_size)` on
either axis. -/
def Snake.collided_with_wall (s : Snake) : Bool :=
  decide (s.head.1 < 0 ∨ s.head.2 < 0 ∨
    (s.grid_size : Int) ≤ s.head.1 ∨ (s.grid_size : Int) ≤ s.head.2)

/-- Modelled from the spec: `agent.dqn.ACTIONS` lives in a module that is
not among the sources; the spec fixes four recognised directions in the
order {Up, Down, Left, Right}, matching the one-hot order used by
`SnakeGame.get_state`. -/
def ACTIONS : List Pos := [(0, -1), (0, 1), (-1, 0), (1, 0)]

/-- Embedding of class `SnakeGame` from `src/snake_game/game.py`
(rendering fields omitted).  `fruitPos` is `self.fruit.position`. -/
structure SnakeGame where
  grid_size : Nat
  snake : Snake
  fruitPos : Pos
  score : Nat
  running : Bool
  won : Bool
  reward_fruit : ℚ
  reward_death : ℚ
  reward_step : ℚ
  reward_win : ℚ
deriving DecidableEq

/-- Embedding of `SnakeGame.__init__` with the random initial position of the
fruit passed as an oracle (the code draws it by rejection sampling). -/
def SnakeGame.init (grid_size : Nat) (fruit0 : Pos)
    (rf rd rs rw : ℚ) : SnakeGame :=
  { grid_size := grid_size
  , snake := Snake.init grid_size
  , fruitPos := fruit0
  , score := 0
  , running := true
  , won := false
  , reward_fruit := rf
  , reward_death := rd
  , reward_step := rs
  , reward_win := rw }

/-- Shorthand for `SnakeGame(grid_size)` with the default reward constants
`reward_fruit=5, reward_death=-10, reward_step=-0.01, reward_win=100`. -/
def SnakeGame.mk0 (grid_size : Nat) (fruit0 : Pos) : SnakeGame :=
  SnakeGame.init grid_size fruit0 5 (-10) (-1/100) 100

/-- Embedding of `SnakeGame.check_win_condition`: body length, plus one if the
snake is set to grow, equals the total number of grid cells. -/
def SnakeGame.check_win_condition (g : SnakeGame) : Bool :=
  decide (g.snake.body.length + (if g.snake.grow then 1 else 0)
    = g.grid_size * g.grid_size)

/-- The "current_length" of `check_win_condition`: stored body length plus
the pending-growth flag. -/
def SnakeGame.effLen (g : SnakeGame) : Nat :=
  g.snake.body.length + (if g.snake.grow then 1 else 0)

/-- Embedding of `SnakeGame.update` with the fruit respawn position passed as
an oracle `freshFruit` (the code draws it by rejection sampling over cells
not occupied by the body).  Mirrors the source: move, fruit/growth/score
handling with an early return on a win, then the collision check. -/
def SnakeGame.update (g : SnakeGame) (freshFruit : Pos) : SnakeGame :=
  let s := g.snake.move
  if s.head = g.fruitPos then
    let s2 := s.grow_snake
    let g2 := { g with snake := s2, score := g.score + 1 }
    if g2.check_win_condition then
      { g2 with won := true, running := false }
    else
      let g3 := { g2 with fruitPos := freshFruit }
      if s2.collided_with_self || s2.collided_with_wall then
        { g3 with running := false }
      else g3
  else
    let g1 := { g with snake := s }
    if s.collided_with_self || s.collided_with_wall then
      { g1 with running := false }
    else g1

/-- The value of grid cell `(x, y)` in the encoding of
`SnakeGame.get_state`: body cells are written as 1 (in-bounds writes
only, and the flattening below only queries in-bounds cells), then the
fruit cell is written as 2, overwriting. -/
def SnakeGame.gridCell (g : SnakeGame) (x y : Int) : ℚ :=
  if g.fruitPos = (x, y) then 2
  else if (x, y) ∈ g.snake.body then 1 else 0

/-- The flattened grid of `SnakeGame.get_state`: `state[x, y]` appears at
flat index `x * grid_size + y` (torch row-major flatten). -/
def SnakeGame.flatGrid (g : SnakeGame) : List ℚ :=
  (List.range (g.grid_size * g.grid_size)).map
    (fun i => g.gridCell ((i / g.grid_size : Nat) : Int) ((i % g.grid_size : Nat) : Int))

/-- The direction slot of `SnakeGame.get_state`: the dict
`{(0,-1): 0, (0,1): 1, (-1,0): 2, (1,0): 3}` with lookup default 0. -/
def SnakeGame.dirIndex (g : SnakeGame) : Nat :=
  if g.snake.direction = (0, -1) then 0
  else if g.snake.direction = (0, 1) then 1
  else if g.snake.direction = (-1, 0) then 2
  else if g.snake.direction = (1, 0) then 3
  else 0

/-- The 4-wide direction one-hot of `SnakeGame.get_state`. -/
def SnakeGame.dirOneHot (g : SnakeGame) : List ℚ :=
  (List.range 4).map (fun i => if i = g.dirIndex then (1 : ℚ) else 0)

/-- First component of the relative fruit position of
`SnakeGame.get_state`: `(fruit.x - head.x) / (grid_size - 1)`. -/
def SnakeGame.relFruitX (g : SnakeGame) : ℚ :=
  ((g.fruitPos.1 - g.snake.head.1 : Int) : ℚ) / ((g.grid_size : ℚ) - 1)

/-- Second component of the relative fruit position of
`SnakeGame.get_state`: `(fruit.y - head.y) / (grid_size - 1)`. -/
def SnakeGame.relFruitY (g : SnakeGame) : ℚ :=
  ((g.fruitPos.2 - g.snake.head.2 : Int) : ℚ) / ((g.grid_size : ℚ) - 1)

/-- Embedding of `SnakeGame.get_state` as a flat list of exact rationals: the
flattened grid, then the 4-wide direction one-hot in the order
up/down/left/right, then the 2-wide relative fruit position. -/
def SnakeGame.get_state (g : SnakeGame) : List ℚ :=
  g.flatGrid ++ g.dirOneHot ++ [g.relFruitX, g.relFruitY]

/-- Embedding of `SnakeGame.step`: validate the action index against `ACTIONS`,
set the direction, run `update`, then classify the reward.  The returned
observation of the Python code is `(result.1).get_state`. -/
def SnakeGame.step (g : SnakeGame) (action_idx : Int) (freshFruit : Pos) :
    Except String (SnakeGame × ℚ × Bool) :=
  if action_idx < 0 ∨ (ACTIONS.length : Int) ≤ action_idx then
    Except.error "Invalid action index"
  else
    let g1 := { g with snake := g.snake.set_direction (ACTIONS.getD action_idx.toNat (0, 0)) }
    let prev_score := g1.score
    let g2 := g1.update freshFruit
    let rd : ℚ × Bool :=
      if g2.running = false then
        if g2.won then (g2.reward_win, true) else (g2.reward_death, true)
      else if prev_score < g2.score then (g2.reward_fruit, false)
      else (g2.reward_step, false)
    Except.ok (g2, rd.1, rd.2)

/-- Post-state of a `step`, with an erroring step leaving the state
unchanged (used only to chain concrete traces). -/
def stepState (g : SnakeGame) (a : Int) (f : Pos) : SnakeGame :=
  match g.step a f with
  | Except.ok r => r.1
  | Except.error _ => g

/-- Run a list of (action, fruit-oracle) pairs from a state. -/
def runTrace (g : SnakeGame) (l : List (Int × Pos)) : SnakeGame :=
  l.foldl (fun st p => stepState st p.1 p.2) g

/-- A cell lies inside the `n × n` grid. -/
def inBounds (n : Nat) (p : Pos) : Prop :=
  0 ≤ p.1 ∧ p.1 < (n : Int) ∧ 0 ≤ p.2 ∧ p.2 < (n : Int)

instance (n : Nat) (p : Pos) : Decidable (inBounds n p) := by
  unfold inBounds; infer_instance

/-- The finite set of grid cells of an `n × n` grid. -/
def cellsF (n : Nat) : Finset Pos :=
  Finset.Icc (0 : Int) ((n : Int) - 1) ×ˢ Finset.Icc (0 : Int) ((n : Int) - 1)

/-- Embedding of `Fruit.new_position` (rejection sampling) with the random draws of
`snake_game.utils.random_position` supplied as a proposal stream and the
unbounded `while True` loop given explicit fuel: return the first
proposal, from index `k` on, that is not a body cell. -/
def newPositionFuel (stream : Nat → Pos) (body : List Pos) : Nat → Nat → Option Pos
  | _, 0 => none
  | k, fuel + 1 =>
    if stream k ∈ body then newPositionFuel stream body (k + 1) fuel
    else some (stream k)

/-! Constants and the step counter of `src/train.py`. -/

def NUM_ENVS : Nat := 64

def TARGET_UPDATE_FREQ : Nat := 1000

def BATCH_SIZE : Nat := 128

/-- Embedding of `step_count` of `src/train.py` after `n` iterations of the
training loop: starts at 0, `step_count += NUM_ENVS` once per loop iteration. -/
def step_count : Nat → Nat
  | 0 => 0
  | n + 1 => step_count n + NUM_ENVS

/-- The target-network refresh condition of iteration `n`, checked before
the increment of that iteration: `step_count % TARGET_UPDATE_FREQ == 0`. -/
def target_refresh (n : Nat) : Bool := step_count n % TARGET_UPDATE_FREQ == 0

/-- Modelled from the spec: `PriorityStore.sample`
(`agent.prioritized_memory.PrioritizedReplayMemory.sample` is in a module
that is not among the sources) fails with `InsufficientDataError` when
fewer valid entries than `batch_size` exist, otherwise returns a batch of
`batch_size` sampled slot indices. -/
def sampleM (size batch : Nat) : Except String (List Nat) :=
  if size < batch then Except.error "InsufficientDataError"
  else Except.ok (List.range batch)

/-- The guard of `optimize_model` in `src/train.py`: return `None`
without sampling when fewer than `BATCH_SIZE` entries are stored,
otherwise sample a batch of `BATCH_SIZE`. -/
def optimize_model (memLen : Nat) : Except String (Option (List Nat)) :=
  if memLen < BATCH_SIZE then Except.ok none
  else (sampleM memLen BATCH_SIZE).map some

/-- Reward component of a successful `step` (junk 0 on an error). -/
def stepReward (g : SnakeGame) (a : Int) (f : Pos) : ℚ :=
  match g.step a f with
  | Except.ok r => r.2.1
  | Except.error _ => 0

/-- Done component of a successful `step` (junk `false` on an error). -/
def stepDone (g : SnakeGame) (a : Int) (f : Pos) : Bool :=
  match g.step a f with
  | Except.ok r => r.2.2
  | Except.error _ => false

/-! ### Concrete scenarios -/

/-- A 4×4 game with the default layout, fruit at (3,2) (directly in
front of the head), and division-free reward constants 5, -10, -2, 100. -/
def wG1 : SnakeGame := SnakeGame.init 4 (3, 2) 5 (-10) (-2) 100

/-- A 2×2 game one fruit away from filling the grid: body
[(0,0),(1,0),(1,1)] moving down, fruit at (0,1). -/
def wG2 : SnakeGame :=
  { grid_size := 2
  , snake := { grid_size := 2, body := [(0, 0), (1, 0), (1, 1)], direction := (0, 1), grow := false }
  , fruitPos := (0, 1)
  , score := 0
  , running := true
  , won := false
  , reward_fruit := 5
  , reward_death := -10
  , reward_step := -2
  , reward_win := 100 }

/-- The 4×4 winning scenario of the spec: 13 consecutive fruit-eating ticks
from the default start (fruit oracle always the next head cell). -/
def winTrace : List (Int × Pos) :=
  [(3, (3, 3)), (1, (2, 3)), (2, (1, 3)), (2, (0, 3)), (2, (0, 2)),
   (0, (0, 1)), (0, (0, 0)), (0, (1, 0)), (3, (2, 0)), (3, (3, 0)),
   (3, (3, 1)), (1, (2, 1)), (2, (0, 0))]

/-! ### Helper lemmas about the embedded operations -/

@[simp] lemma Snake.grow_snake_body (s : Snake) : s.grow_snake.body = s.body := rfl

@[simp] lemma Snake.grow_snake_grow (s : Snake) : s.grow_snake.grow = true := rfl

@[simp] lemma Snake.grow_snake_gridSize (s : Snake) : s.grow_snake.grid_size = s.grid_size := rfl

lemma Snake.move_body (s : Snake) :
    s.move.body = (s.head.1 + s.direction.1, s.head.2 + s.direction.2)
      :: (if s.grow then s.body else s.body.dropLast) := by
  unfold Snake.move
  split <;> simp_all

lemma Snake.move_grow (s : Snake) : s.move.grow = false := by
  unfold Snake.move
  split <;> simp_all

@[simp] lemma Snake.move_gridSize (s : Snake) : s.move.grid_size = s.grid_size := by
  unfold Snake.move
  split <;> rfl

lemma Snake.move_head (s : Snake) :
    s.move.head = (s.head.1 + s.direction.1, s.head.2 + s.direction.2) := by
  rw [Snake.head, Snake.move_body]
  rfl

lemma Snake.move_length (s : Snake) (h : s.body ≠ []) :
    s.move.body.length = s.body.length + (if s.grow then 1 else 0) := by
  rw [Snake.move_body]
  have h1 : 0 < s.body.length := List.length_pos.mpr h
  split <;> simp [List.length_dropLast] <;> omega

lemma Snake.move_length_ge (s : Snake) : s.body.length ≤ s.move.body.length := by
  rw [Snake.move_body]
  split <;> simp [List.length_dropLast] <;> omega

@[simp] lemma Snake.grow_snake_collided_self (s : Snake) :
    s.grow_snake.collided_with_self = s.collided_with_self := rfl

@[simp] lemma Snake.grow_snake_collided_wall (s : Snake) :
    s.grow_snake.collided_with_wall = s.collided_with_wall := rfl

@[simp] lemma Snake.set_direction_body (s : Snake) (d : Pos) :
    (s.set_direction d).body = s.body := by
  unfold Snake.set_direction
  split <;> rfl

@[simp] lemma Snake.set_direction_grow (s : Snake) (d : Pos) :
    (s.set_direction d).grow = s.grow := by
  unfold Snake.set_direction
  split <;> rfl

@[simp] lemma Snake.set_direction_gridSize (s : Snake) (d : Pos) :
    (s.set_direction d).grid_size = s.grid_size := by
  unfold Snake.set_direction
  split <;> rfl

lemma getD_map_range (F : Nat → ℚ) (k i : Nat) (h : i < k) :
    ((List.range k).map F).getD i 0 = F i := by
  rw [List.getD_eq_getElem?_getD, List.getElem?_map, List.getElem?_range h]
  rfl

lemma div_bounds {x : Int} {n : Nat} (h2 : 2 ≤ n)
    (hx1 : -((n : Int) - 1) ≤ x) (hx2 : x ≤ (n : Int) - 1) :
    -1 ≤ ((x : ℚ) / ((n : ℚ) - 1)) ∧ ((x : ℚ) / ((n : ℚ) - 1)) ≤ 1 := by
  have hpos : (0 : ℚ) < (n : ℚ) - 1 := by
    have h : (2 : ℚ) ≤ (n : ℚ) := by exact_mod_cast h2
    linarith
  constructor
  · rw [le_div_iff hpos]
    have h : (-((n : Int) - 1) : ℚ) ≤ (x : ℚ) := by exact_mod_cast hx1
    push_cast at h
    linarith
  · rw [div_le_one hpos]
    have h : (x : ℚ) ≤ (((n : Int) - 1) : ℚ) := by exact_mod_cast hx2
    push_cast at h
    linarith

lemma flatGrid_length (g : SnakeGame) : g.flatGrid.length = g.grid_size * g.grid_size := by
  simp [SnakeGame.flatGrid]

lemma dirOneHot_length (g : SnakeGame) : g.dirOneHot.length = 4 := by
  simp [SnakeGame.dirOneHot]

lemma get_state_getD_flat (g : SnakeGame) (i : Nat) (h : i < g.grid_size * g.grid_size) :
    g.get_state.getD i 0
      = g.gridCell ((i / g.grid_size : Nat) : Int) ((i % g.grid_size : Nat) : Int) := by
  rw [SnakeGame.get_state, List.getD_append, List.getD_append]
  · exact getD_map_range _ _ _ h
  · rw [flatGrid_length]
    exact h
  · rw [List.length_append, flatGrid_length, dirOneHot_length]
    omega

lemma get_state_getD_dir (g : SnakeGame) (i : Nat) (h : i < 4) :
    g.get_state.getD (g.grid_size * g.grid_size + i) 0
      = if i = g.dirIndex then 1 else 0 := by
  rw [SnakeGame.get_state, List.getD_append, List.getD_append_right]
  · rw [flatGrid_length, Nat.add_sub_cancel_left]
    exact getD_map_range _ _ _ h
  · rw [flatGrid_length]
    omega
  · rw [List.length_append, flatGrid_length, dirOneHot_length]
    omega

lemma get_state_getD_dx (g : SnakeGame) :
    g.get_state.getD (g.grid_size * g.grid_size + 4) 0 = g.relFruitX := by
  rw [SnakeGame.get_state, List.getD_append_right]
  · rw [List.length_append, flatGrid_length, dirOneHot_length, Nat.sub_self]
    rfl
  · rw [List.length_append, flatGrid_length, dirOneHot_length]

lemma get_state_getD_dy (g : SnakeGame) :
    g.get_state.getD (g.grid_size * g.grid_size + 5) 0 = g.relFruitY := by
  rw [SnakeGame.get_state, List.getD_append_right]
  · rw [List.length_append, flatGrid_length, dirOneHot_length]
    have h1 : g.grid_size * g.grid_size + 5 - (g.grid_size * g.grid_size + 4) = 1 := by omega
    rw [h1]
    rfl
  · rw [List.length_append, flatGrid_length, dirOneHot_length]
    omega

lemma SnakeGame.update_length_ge (g : SnakeGame) (f : Pos) :
    g.snake.body.length ≤ (g.update f).snake.body.length := by
  simp only [SnakeGame.update]
  split
  · split
    · simpa using Snake.move_length_ge g.snake
    · split
      · simpa using Snake.move_length_ge g.snake
      · simpa using Snake.move_length_ge g.snake
  · split
    · simpa using Snake.move_length_ge g.snake
    · simpa using Snake.move_length_ge g.snake

/-! ### Claim theorems -/

/-- C1 (amended): on a non-terminating tick from a Running state, the
reward equals `reward_fruit` exactly when the effective body length
(stored length plus the pending-growth flag, the quantity
`check_win_condition` measures) grows by exactly one and the score is
incremented, and exactly when the tick leaves the growth flag set; on
every such tick the stored body length changes only by the pending flag
of the previous tick, so the growth from a fruit tick materializes on
the following move.  Stored body length never decreases on any
`update`. -/
theorem C1_fruit_growth_deferred
    (g g' : SnakeGame) (a : Int) (f : Pos) (r : ℚ)
    (hrun : g.running = true) (hwon : g.won = false)
    (hne : g.snake.body ≠ [])
    (hrs : g.reward_fruit ≠ g.reward_step)
    (h : g.step a f = Except.ok (g', r, false)) :
    (r = g.reward_fruit ↔ (g'.effLen = g.effLen + 1 ∧ g'.score = g.score + 1))
    ∧ (r ≠ g.reward_fruit → (g'.effLen = g.effLen ∧ g'.score = g.score))
    ∧ (r = g.reward_fruit ↔ g'.snake.grow = true)
    ∧ g'.snake.body.length
        = g.snake.body.length + (if g.snake.grow = true then 1 else 0)
    ∧ g.snake.body.length ≤ g'.snake.body.length
    ∧ (∀ (g2 : SnakeGame) (f2 : Pos),
        g2.snake.body.length ≤ (g2.update f2).snake.body.length) := by
  have hmoveLen : ∀ d : Pos, (g.snake.set_direction d).move.body.length
      = g.snake.body.length + (if g.snake.grow then 1 else 0) := by
    intro d
    rw [Snake.move_length]
    · simp
    · simpa using hne
  simp only [SnakeGame.step] at h
  split at h
  · exact absurd h (by simp)
  · rw [Except.ok.injEq, Prod.mk.injEq, Prod.mk.injEq] at h
    simp only [SnakeGame.update] at h
    split at h
    · split at h
      · obtain ⟨hg, hr, hd⟩ := h
        simp [hrun, hwon] at hd
      · split at h
        · obtain ⟨hg, hr, hd⟩ := h
          simp [hrun, hwon] at hd
        · obtain ⟨hg, hr, hd⟩ := h
          simp [hrun, hwon] at hr
          subst hg
          subst hr
          refine ⟨?_, ?_, ?_, ?_, ?_, fun g2 f2 => SnakeGame.update_length_ge g2 f2⟩
          · simp [SnakeGame.effLen, hmoveLen]
          · simp
          · simp
          · simp [hmoveLen]
          · simp [hmoveLen]
    · split at h
      · obtain ⟨hg, hr, hd⟩ := h
        simp [hrun, hwon] at hd
      · obtain ⟨hg, hr, hd⟩ := h
        simp [hrun, hwon] at hr
        subst hg
        subst hr
        refine ⟨?_, ?_, ?_, ?_, ?_, fun g2 f2 => SnakeGame.update_length_ge g2 f2⟩
        · simp [SnakeGame.effLen, hmoveLen, Snake.move_grow, hrs.symm]
        · simp [SnakeGame.effLen, hmoveLen, Snake.move_grow]
        · simp [Snake.move_grow, hrs.symm]
        · simp [hmoveLen]
        · simp [hmoveLen]

/-- C3 (amended): from a Running (not yet effectively full) state, a
tick transitions to Won if and only if the effective body length
(stored length plus the pending-growth flag) equals `grid_size^2` after
the move; on that tick the stored body length is `grid_size^2 - 1`, the
fruit is not re-placed, and `reward_win` with `done` is reported. -/
theorem C3_win_condition
    (g g' : SnakeGame) (a : Int) (f : Pos) (r : ℚ) (d : Bool)
    (hrun : g.running = true) (hwon : g.won = false)
    (hne : g.snake.body ≠ [])
    (hlt : g.effLen < g.grid_size * g.grid_size)
    (h : g.step a f = Except.ok (g', r, d)) :
    (g'.won = true ↔ g'.effLen = g.grid_size * g.grid_size)
    ∧ (g'.won = true →
        g'.fruitPos = g.fruitPos
        ∧ g'.snake.body.length + 1 = g.grid_size * g.grid_size
        ∧ r = g.reward_win ∧ d = true) := by
  have hmoveLen : ∀ dd : Pos, (g.snake.set_direction dd).move.body.length
      = g.snake.body.length + (if g.snake.grow then 1 else 0) := by
    intro dd
    rw [Snake.move_length]
    · simp
    · simpa using hne
  simp only [SnakeGame.step] at h
  split at h
  · exact absurd h (by simp)
  · rw [Except.ok.injEq, Prod.mk.injEq, Prod.mk.injEq] at h
    simp only [SnakeGame.update] at h
    split at h
    · split at h
      · rename_i hwin
        obtain ⟨hg, hr, hd⟩ := h
        simp only [SnakeGame.check_win_condition, decide_eq_true_eq] at hwin
        simp [hrun, hwon] at hr hd
        subst hg
        subst hr
        subst hd
        simp only [SnakeGame.effLen] at *
        simp at hwin ⊢
        omega
      · rename_i hnwin
        split at h
        · obtain ⟨hg, hr, hd⟩ := h
          simp only [SnakeGame.check_win_condition, decide_eq_true_eq] at hnwin
          subst hg
          simp only [SnakeGame.effLen] at *
          simp [hwon] at hnwin ⊢
          omega
        · obtain ⟨hg, hr, hd⟩ := h
          simp only [SnakeGame.check_win_condition, decide_eq_true_eq] at hnwin
          subst hg
          simp only [SnakeGame.effLen] at *
          simp [hwon] at hnwin ⊢
          omega
    · split at h
      · obtain ⟨hg, hr, hd⟩ := h
        subst hg
        simp only [SnakeGame.effLen] at *
        simp [hwon, hmoveLen, Snake.move_grow]
        omega
      · obtain ⟨hg, hr, hd⟩ := h
        subst hg
        simp only [SnakeGame.effLen] at *
        simp [hwon, hmoveLen, Snake.move_grow]
        omega

/-- C4 (amended): the encoded observation has fixed length
`grid_size^2 + 4 + 2` and consists of the flattened grid — each cell
holding 2 exactly on the fruit cell, 1 exactly on non-fruit snake-body
cells, and 0 on the remaining (empty) cells — a 4-wide one-hot of the
current direction in the order {Up, Down, Left, Right}, and the 2-wide
relative-fruit vector
`((fruit.x - head.x)/(grid_size-1), (fruit.y - head.y)/(grid_size-1))`;
the two relative components lie in `[-1, 1]` whenever the head is within
grid bounds (in particular in every Running state) — on the terminal
observation after a wall death they can leave that interval. -/
theorem C4_observation_encoding
    (g : SnakeGame)
    (h2 : 2 ≤ g.grid_size)
    (hdir : g.snake.direction ∈ ACTIONS)
    (hh : inBounds g.grid_size g.snake.head)
    (hf : inBounds g.grid_size g.fruitPos) :
    g.get_state.length = g.grid_size * g.grid_size + 4 + 2
    ∧ (∀ i, i < g.grid_size * g.grid_size →
        ((g.get_state.getD i 0 = 2
            ↔ g.fruitPos = (((i / g.grid_size : Nat) : Int), ((i % g.grid_size : Nat) : Int)))
          ∧ (g.get_state.getD i 0 = 1
            ↔ ((((i / g.grid_size : Nat) : Int), ((i % g.grid_size : Nat) : Int)) ∈ g.snake.body
                ∧ g.fruitPos ≠ (((i / g.grid_size : Nat) : Int), ((i % g.grid_size : Nat) : Int))))
          ∧ (g.get_state.getD i 0 = 0
            ↔ ((((i / g.grid_size : Nat) : Int), ((i % g.grid_size : Nat) : Int)) ∉ g.snake.body
                ∧ g.fruitPos ≠ (((i / g.grid_size : Nat) : Int), ((i % g.grid_size : Nat) : Int))))))
    ∧ (∃ j, j < 4 ∧ ACTIONS.getD j (0, 0) = g.snake.direction
        ∧ (∀ i, i < 4 →
          g.get_state.getD (g.grid_size * g.grid_size + i) 0 = if i = j then 1 else 0))
    ∧ g.get_state.getD (g.grid_size * g.grid_size + 4) 0
        = ((g.fruitPos.1 - g.snake.head.1 : Int) : ℚ) / ((g.grid_size : ℚ) - 1)
    ∧ g.get_state.getD (g.grid_size * g.grid_size + 5) 0
        = ((g.fruitPos.2 - g.snake.head.2 : Int) : ℚ) / ((g.grid_size : ℚ) - 1)
    ∧ (-1 ≤ g.get_state.getD (g.grid_size * g.grid_size + 4) 0
        ∧ g.get_state.getD (g.grid_size * g.grid_size + 4) 0 ≤ 1
        ∧ -1 ≤ g.get_state.getD (g.grid_size * g.grid_size + 5) 0
        ∧ g.get_state.getD (g.grid_size * g.grid_size + 5) 0 ≤ 1) := by
  obtain ⟨hh1, hh2, hh3, hh4⟩ := hh
  obtain ⟨hf1, hf2, hf3, hf4⟩ := hf
  refine ⟨?_, ?_, ?_, get_state_getD_dx g, get_state_getD_dy g, ?_⟩
  · simp [SnakeGame.get_state, flatGrid_length, dirOneHot_length]
  · intro i hi
    rw [get_state_getD_flat g i hi]
    unfold SnakeGame.gridCell
    split
    · rename_i hfr
      refine ⟨⟨fun _ => hfr, fun _ => rfl⟩, ?_, ?_⟩
      · constructor
        · intro hv
          norm_num at hv
        · intro hv
          exact absurd hfr hv.2
      · constructor
        · intro hv
          norm_num at hv
        · intro hv
          exact absurd hfr hv.2
    · rename_i hfr
      split
      · rename_i hmem
        refine ⟨?_, ⟨fun _ => ⟨hmem, hfr⟩, fun _ => rfl⟩, ?_⟩
        · constructor
          · intro hv
            norm_num at hv
          · intro hv
            exact absurd hv hfr
        · constructor
          · intro hv
            norm_num at hv
          · intro hv
            exact absurd hmem hv.1
      · rename_i hmem
        refine ⟨?_, ?_, ⟨fun _ => ⟨hmem, hfr⟩, fun _ => rfl⟩⟩
        · constructor
          · intro hv
            norm_num at hv
          · intro hv
            exact absurd hv hfr
        · constructor
          · intro hv
            norm_num at hv
          · intro hv
            exact absurd hv.1 hmem
  · refine ⟨g.dirIndex, ?_, ?_, fun i hi => get_state_getD_dir g i hi⟩
    · simp only [ACTIONS, List.mem_cons, List.not_mem_nil, or_false] at hdir
      rcases hdir with h | h | h | h <;> simp [SnakeGame.dirIndex, h]
    · simp only [ACTIONS, List.mem_cons, List.not_mem_nil, or_false] at hdir
      rcases hdir with h | h | h | h <;> simp [SnakeGame.dirIndex, h, ACTIONS]
  · rw [get_state_getD_dx g, get_state_getD_dy g]
    have hbx := @div_bounds (g.fruitPos.1 - g.snake.head.1) g.grid_size h2
      (by omega) (by omega)
    have hby := @div_bounds (g.fruitPos.2 - g.snake.head.2) g.grid_size h2
      (by omega) (by omega)
    exact ⟨hbx.1, hbx.2, hby.1, hby.2⟩

/-- C5: `set_direction` stores the requested direction unless it is the
exact opposite of the current direction, in which case the request is
silently ignored; issuing the exact opposite leaves the snake (and hence
the trajectory) entirely unchanged. -/
theorem C5_reversal_ignored :
    ∀ (s : Snake) (d : Pos),
      ((s.set_direction d).direction
        = if d = (-s.direction.1, -s.direction.2) then s.direction else d)
      ∧ s.set_direction (-s.direction.1, -s.direction.2) = s := by
  intro s d
  constructor
  · unfold Snake.set_direction
    split <;> simp_all
  · unfold Snake.set_direction
    simp

/-- C2: on every tick stepped from a Running (not yet won) state,
exactly one reward rule applies: `reward_win` on a transition to Won,
`reward_death` on a transition to Died, `reward_fruit` when the score
increased without terminating, and `reward_step` otherwise; `done` is
reported accordingly. -/
theorem C2_reward_rules
    (g g' : SnakeGame) (a : Int) (f : Pos) (r : ℚ) (d : Bool)
    (hrun : g.running = true) (hwon : g.won = false)
    (h : g.step a f = Except.ok (g', r, d)) :
    (g'.won = true → r = g.reward_win ∧ d = true)
    ∧ ((g'.running = false ∧ g'.won = false) → r = g.reward_death ∧ d = true)
    ∧ ((g'.running = true ∧ g.score < g'.score) → r = g.reward_fruit ∧ d = false)
    ∧ ((g'.running = true ∧ ¬ g.score < g'.score) → r = g.reward_step ∧ d = false)
    ∧ (g'.won = true ∨ (g'.running = false ∧ g'.won = false)
        ∨ (g'.running = true ∧ g.score < g'.score)
        ∨ (g'.running = true ∧ ¬ g.score < g'.score))
    ∧ (g'.won = true → ¬ g'.running = true) := by
  simp only [SnakeGame.step] at h
  split at h
  · exact absurd h (by simp)
  · rw [Except.ok.injEq, Prod.mk.injEq, Prod.mk.injEq] at h
    simp only [SnakeGame.update] at h
    split at h
    · split at h
      · obtain ⟨hg, hr, hd⟩ := h
        subst hg
        subst hr
        subst hd
        simp [hrun, hwon]
      · split at h
        · obtain ⟨hg, hr, hd⟩ := h
          subst hg
          subst hr
          subst hd
          simp [hrun, hwon]
        · obtain ⟨hg, hr, hd⟩ := h
          subst hg
          subst hr
          subst hd
          simp [hrun, hwon]
    · split at h
      · obtain ⟨hg, hr, hd⟩ := h
        subst hg
        subst hr
        subst hd
        simp [hrun, hwon]
      · obtain ⟨hg, hr, hd⟩ := h
        subst hg
        subst hr
        subst hd
        simp [hrun, hwon]

/-- C6: from a Running (not yet won) state, a tick that does not
transition to Won marks the instance Died (terminal, not won) if and
only if, after the move, the new head lies outside the grid bounds or
coincides with another body cell; a tick that transitions to Won is
terminal without the death check being applied. -/
theorem C6_death_check
    (g : SnakeGame) (f : Pos)
    (hrun : g.running = true) (hwon : g.won = false) :
    ((g.update f).won = false →
      (((g.update f).running = false ∧ (g.update f).won = false)
        ↔ ((g.snake.move).collided_with_self = true
            ∨ (g.snake.move).collided_with_wall = true)))
    ∧ ((g.update f).won = true → (g.update f).running = false) := by
  simp only [SnakeGame.update]
  split
  · split
    · simp_all
    · split <;> simp_all
  · split <;> simp_all

/-- C7: `step` fails (with the invalid-action error) if and only if the
action id lies outside the four recognised direction indices. -/
theorem C7_invalid_action :
    ∀ (g : SnakeGame) (a : Int) (f : Pos),
      (∃ e, g.step a f = Except.error e) ↔ (a < 0 ∨ 4 ≤ a) := by
  intro g a f
  unfold SnakeGame.step
  have hl : ((ACTIONS.length : Int)) = 4 := by simp [ACTIONS]
  constructor
  · intro he
    rcases he with ⟨e, he⟩
    by_contra hc
    rw [if_neg] at he
    · exact Except.noConfusion he
    · rw [hl]
      exact hc
  · intro hc
    rw [if_pos]
    · exact ⟨"Invalid action index", rfl⟩
    · rw [hl]
      exact hc

/-- C8: after `n` iterations of the training loop the global step counter
equals `n * NUM_ENVS` (it grows by `NUM_ENVS` per batched tick), and the
target network is refreshed exactly on the ticks where that counter is a
multiple of `TARGET_UPDATE_FREQ`; with `NUM_ENVS = 64` and
`TARGET_UPDATE_FREQ = 1000` this means a fixed cadence of one refresh
every 125 ticks (8000 environment steps), independent of episode
completions. -/
theorem C8_target_refresh_cadence :
    ∀ n : Nat,
      step_count n = n * NUM_ENVS
      ∧ (target_refresh n = true ↔ (n * NUM_ENVS) % TARGET_UPDATE_FREQ = 0)
      ∧ (target_refresh n = true ↔ n % 125 = 0) := by
  intro n
  have h1 : step_count n = n * NUM_ENVS := by
    induction n with
    | zero => rfl
    | succ k ih =>
      rw [step_count, ih]
      ring
  refine ⟨h1, ?_, ?_⟩
  · rw [target_refresh, h1]
    simp
  · rw [target_refresh, h1]
    simp only [beq_iff_eq, NUM_ENVS, TARGET_UPDATE_FREQ]
    omega

/-- C9: `optimize_model` never propagates the sampling failure: it
returns `None` (without sampling) exactly when fewer than `BATCH_SIZE`
entries are stored, and otherwise successfully samples a batch. -/
theorem C9_optimize_guard :
    ∀ memLen : Nat,
      ∃ v, optimize_model memLen = Except.ok v
        ∧ (v = none ↔ memLen < BATCH_SIZE) := by
  intro m
  by_cases h : m < BATCH_SIZE
  · exact ⟨none, by simp [optimize_model, h], by simp [h]⟩
  · refine ⟨some (List.range BATCH_SIZE), ?_, by simp [h]⟩
    simp [optimize_model, h, sampleM, Except.map]

lemma mem_cellsF (n : Nat) (p : Pos) : p ∈ cellsF n ↔ inBounds n p := by
  unfold cellsF inBounds
  rcases p with ⟨x, y⟩
  simp [Finset.mem_product, Finset.mem_Icc]
  omega

lemma card_cellsF (n : Nat) : (cellsF n).card = n * n := by
  unfold cellsF
  rw [Finset.card_product, Int.card_Icc]
  simp

lemma exists_free_cell {n : Nat} {l : List Pos} (hsub : ∀ p ∈ l, inBounds n p)
    (hlen : l.length < n * n) : ∃ p, inBounds n p ∧ p ∉ l := by
  by_contra hc
  push_neg at hc
  have hsubset : cellsF n ⊆ l.toFinset := by
    intro p hp
    rw [List.mem_toFinset]
    exact hc p ((mem_cellsF n p).mp hp)
  have hcard := Finset.card_le_card hsubset
  rw [card_cellsF] at hcard
  have hc2 : l.toFinset.card ≤ l.length := l.toFinset_card_le
  omega

lemma newPositionFuel_some (stream : Nat → Pos) (body : List Pos) (k fuel : Nat) (p : Pos)
    (h : newPositionFuel stream body k fuel = some p) : p ∉ body := by
  induction fuel generalizing k with
  | zero => simp [newPositionFuel] at h
  | succ f ih =>
    unfold newPositionFuel at h
    split at h
    · exact ih _ h
    · rename_i hmem
      rw [Option.some.injEq] at h
      rw [← h]
      exact hmem

/-- C10: at the respawn call site inside `update` (head landed on the
fruit, win check already failed) the post-move body leaves at least one
grid cell free, so the rejection-sampling loop of `Fruit.new_position`
has a reachable exit; whatever it returns is never a body cell, and any
free in-bounds cell is returned by some draw sequence in one iteration.
At construction time (grid size at least 4, the smallest the initial
three-cell layout supports) a free cell likewise exists. -/
theorem C10_fruit_respawn_exit
    (g : SnakeGame)
    (hne : g.snake.body ≠ [])
    (hbb : ∀ p ∈ g.snake.body, inBounds g.grid_size p)
    (hfb : inBounds g.grid_size g.fruitPos)
    (heat : g.snake.move.head = g.fruitPos)
    (hlt : g.effLen < g.grid_size * g.grid_size) :
    (∃ p, inBounds g.grid_size p ∧ p ∉ g.snake.move.body)
    ∧ (∀ (stream : Nat → Pos) (k fuel : Nat) (p : Pos),
        newPositionFuel stream g.snake.move.body k fuel = some p
          → p ∉ g.snake.move.body)
    ∧ (∀ p : Pos, p ∉ g.snake.move.body →
        newPositionFuel (fun _ => p) g.snake.move.body 0 1 = some p)
    ∧ (∀ n : Nat, 4 ≤ n → ∃ p, inBounds n p ∧ p ∉ (Snake.init n).body) := by
  refine ⟨?_, fun stream k fuel p h => newPositionFuel_some stream _ k fuel p h, ?_, ?_⟩
  · apply exists_free_cell
    · intro p hp
      rw [Snake.move_body] at hp
      rcases List.mem_cons.mp hp with h | h
      · have hhd : g.snake.move.head
            = (g.snake.head.1 + g.snake.direction.1, g.snake.head.2 + g.snake.direction.2) :=
          Snake.move_head g.snake
        rw [heat] at hhd
        rw [h, ← hhd]
        exact hfb
      · split at h
        · exact hbb p h
        · exact hbb p (List.dropLast_subset _ h)
    · rw [Snake.move_length g.snake hne]
      exact hlt
  · intro p hp
    simp [newPositionFuel, hp]
  · intro n hn
    refine ⟨(0, 0), ?_, ?_⟩
    · unfold inBounds
      constructor
      · omega
      constructor
      · omega
      constructor
      · omega
      · omega
    · simp [Snake.init, Prod.ext_iff]
      omega

set_option maxRecDepth 100000

/-- C1 counterexample: on the first tick of the default 4×4 game with
the fruit directly in front of the head, the new head lands on the
fruit, the instance keeps Running and `reward_fruit` is returned, yet
the stored body length is unchanged on that tick (the growth is only
flagged), contradicting "the body grows by one cell on that same
tick". -/
theorem C1_counterexample :
    stepReward (SnakeGame.mk0 4 (3, 2)) 3 (3, 3) = (SnakeGame.mk0 4 (3, 2)).reward_fruit
    ∧ stepDone (SnakeGame.mk0 4 (3, 2)) 3 (3, 3) = false
    ∧ (stepState (SnakeGame.mk0 4 (3, 2)) 3 (3, 3)).running = true
    ∧ (stepState (SnakeGame.mk0 4 (3, 2)) 3 (3, 3)).snake.head
        = (SnakeGame.mk0 4 (3, 2)).fruitPos
    ∧ (stepState (SnakeGame.mk0 4 (3, 2)) 3 (3, 3)).snake.body.length
        = (SnakeGame.mk0 4 (3, 2)).snake.body.length := by
  decide

/-- C3 counterexample: running the 4×4 winning scenario of the spec, the
instance transitions to Won with `reward_win` and score 13, but the
stored body length on that tick is 15, not `grid_size^2 = 16` (the
16th cell is only the pending-growth flag). -/
theorem C3_counterexample :
    (runTrace (SnakeGame.mk0 4 (3, 2)) winTrace).won = true
    ∧ (runTrace (SnakeGame.mk0 4 (3, 2)) winTrace).snake.body.length = 15
    ∧ (runTrace (SnakeGame.mk0 4 (3, 2)) winTrace).grid_size
        * (runTrace (SnakeGame.mk0 4 (3, 2)) winTrace).grid_size = 16
    ∧ stepReward (runTrace (SnakeGame.mk0 4 (3, 2)) (winTrace.take 12)) 2 (0, 0)
        = (SnakeGame.mk0 4 (3, 2)).reward_win
    ∧ stepDone (runTrace (SnakeGame.mk0 4 (3, 2)) (winTrace.take 12)) 2 (0, 0) = true
    ∧ (runTrace (SnakeGame.mk0 4 (3, 2)) winTrace).score = 13 := by
  decide

/-- C4 counterexample: two valid right-moves from a default 4×4 game
(fruit at (0,0)) drive the head into the wall at (4,2); the terminal
observation returned for that tick has relative-fruit x-component
(0-4)/3 = -4/3 < -1, outside the claimed interval [-1, 1]. -/
theorem C4_counterexample :
    (stepState (stepState (SnakeGame.mk0 4 (0, 0)) 3 (9, 9)) 3 (9, 9)).running = false
    ∧ (stepState (stepState (SnakeGame.mk0 4 (0, 0)) 3 (9, 9)) 3 (9, 9)).get_state.getD 20 0
        < -1 := by
  constructor
  · decide
  · have h1 : (stepState (stepState (SnakeGame.mk0 4 (0, 0)) 3 (9, 9)) 3 (9, 9)).grid_size
        = 4 := by decide
    have h2 : (stepState (stepState (SnakeGame.mk0 4 (0, 0)) 3 (9, 9)) 3 (9, 9)).fruitPos
        = (0, 0) := by decide
    have h3 : (stepState (stepState (SnakeGame.mk0 4 (0, 0)) 3 (9, 9)) 3 (9, 9)).snake.head
        = (4, 2) := by decide
    have hdx := get_state_getD_dx
      (stepState (stepState (SnakeGame.mk0 4 (0, 0)) 3 (9, 9)) 3 (9, 9))
    rw [h1] at hdx
    have h20 : 4 * 4 + 4 = 20 := rfl
    rw [h20] at hdx
    rw [hdx]
    simp only [SnakeGame.relFruitX, h1, h2, h3]
    norm_num

/-! ### Witnesses -/

/-- Witness for C1 at the concrete fruit tick of `wG1`. -/
theorem C1_witness :
    wG1.step 3 (3, 3) = Except.ok (stepState wG1 3 (3, 3), 5, false)
    ∧ (((5 : ℚ) = wG1.reward_fruit ↔
          ((stepState wG1 3 (3, 3)).effLen = wG1.effLen + 1
            ∧ (stepState wG1 3 (3, 3)).score = wG1.score + 1))
        ∧ ((5 : ℚ) ≠ wG1.reward_fruit →
            ((stepState wG1 3 (3, 3)).effLen = wG1.effLen
              ∧ (stepState wG1 3 (3, 3)).score = wG1.score))
        ∧ ((5 : ℚ) = wG1.reward_fruit ↔ (stepState wG1 3 (3, 3)).snake.grow = true)
        ∧ (stepState wG1 3 (3, 3)).snake.body.length
            = wG1.snake.body.length + (if wG1.snake.grow = true then 1 else 0)
        ∧ wG1.snake.body.length ≤ (stepState wG1 3 (3, 3)).snake.body.length
        ∧ (∀ (g2 : SnakeGame) (f2 : Pos),
            g2.snake.body.length ≤ (g2.update f2).snake.body.length)) :=
  ⟨by rfl,
    C1_fruit_growth_deferred wG1 (stepState wG1 3 (3, 3)) 3 (3, 3) 5
      (by decide) (by decide) (by decide) (by decide) rfl⟩

/-- Witness for C2 at the concrete fruit tick of `wG1`. -/
theorem C2_witness :
    wG1.step 3 (3, 3) = Except.ok (stepState wG1 3 (3, 3), 5, false)
    ∧ (((stepState wG1 3 (3, 3)).won = true → (5 : ℚ) = wG1.reward_win ∧ false = true)
        ∧ (((stepState wG1 3 (3, 3)).running = false ∧ (stepState wG1 3 (3, 3)).won = false)
            → (5 : ℚ) = wG1.reward_death ∧ false = true)
        ∧ (((stepState wG1 3 (3, 3)).running = true ∧ wG1.score < (stepState wG1 3 (3, 3)).score)
            → (5 : ℚ) = wG1.reward_fruit ∧ false = false)
        ∧ (((stepState wG1 3 (3, 3)).running = true
              ∧ ¬ wG1.score < (stepState wG1 3 (3, 3)).score)
            → (5 : ℚ) = wG1.reward_step ∧ false = false)
        ∧ ((stepState wG1 3 (3, 3)).won = true
            ∨ ((stepState wG1 3 (3, 3)).running = false ∧ (stepState wG1 3 (3, 3)).won = false)
            ∨ ((stepState wG1 3 (3, 3)).running = true
                ∧ wG1.score < (stepState wG1 3 (3, 3)).score)
            ∨ ((stepState wG1 3 (3, 3)).running = true
                ∧ ¬ wG1.score < (stepState wG1 3 (3, 3)).score))
        ∧ ((stepState wG1 3 (3, 3)).won = true → ¬ (stepState wG1 3 (3, 3)).running = true)) :=
  ⟨by rfl,
    C2_reward_rules wG1 (stepState wG1 3 (3, 3)) 3 (3, 3) 5 false
      (by decide) (by decide) rfl⟩

/-- Witness for C3 at the winning tick of the almost-full 2×2 game
`wG2`. -/
theorem C3_witness :
    wG2.step 1 (0, 0) = Except.ok (stepState wG2 1 (0, 0), 100, true)
    ∧ (((stepState wG2 1 (0, 0)).won = true
          ↔ (stepState wG2 1 (0, 0)).effLen = wG2.grid_size * wG2.grid_size)
        ∧ ((stepState wG2 1 (0, 0)).won = true →
            (stepState wG2 1 (0, 0)).fruitPos = wG2.fruitPos
            ∧ (stepState wG2 1 (0, 0)).snake.body.length + 1 = wG2.grid_size * wG2.grid_size
            ∧ (100 : ℚ) = wG2.reward_win ∧ true = true)) :=
  ⟨by rfl,
    C3_win_condition wG2 (stepState wG2 1 (0, 0)) 1 (0, 0) 100 true
      (by decide) (by decide) (by decide) (by decide) rfl⟩

/-- Witness for C4 at the in-bounds Running state `wG1`. -/
theorem C4_witness :
    (2 ≤ wG1.grid_size ∧ wG1.snake.direction ∈ ACTIONS
      ∧ inBounds wG1.grid_size wG1.snake.head ∧ inBounds wG1.grid_size wG1.fruitPos)
    ∧ (wG1.get_state.length = wG1.grid_size * wG1.grid_size + 4 + 2
        ∧ (∀ i, i < wG1.grid_size * wG1.grid_size →
            ((wG1.get_state.getD i 0 = 2
                ↔ wG1.fruitPos
                    = (((i / wG1.grid_size : Nat) : Int), ((i % wG1.grid_size : Nat) : Int)))
              ∧ (wG1.get_state.getD i 0 = 1
                ↔ ((((i / wG1.grid_size : Nat) : Int), ((i % wG1.grid_size : Nat) : Int))
                      ∈ wG1.snake.body
                    ∧ wG1.fruitPos
                        ≠ (((i / wG1.grid_size : Nat) : Int), ((i % wG1.grid_size : Nat) : Int))))
              ∧ (wG1.get_state.getD i 0 = 0
                ↔ ((((i / wG1.grid_size : Nat) : Int), ((i % wG1.grid_size : Nat) : Int))
                      ∉ wG1.snake.body
                    ∧ wG1.fruitPos
                        ≠ (((i / wG1.grid_size : Nat) : Int), ((i % wG1.grid_size : Nat) : Int))))))
        ∧ (∃ j, j < 4 ∧ ACTIONS.getD j (0, 0) = wG1.snake.direction
            ∧ (∀ i, i < 4 →
              wG1.get_state.getD (wG1.grid_size * wG1.grid_size + i) 0
                = if i = j then 1 else 0))
        ∧ wG1.get_state.getD (wG1.grid_size * wG1.grid_size + 4) 0
            = ((wG1.fruitPos.1 - wG1.snake.head.1 : Int) : ℚ) / ((wG1.grid_size : ℚ) - 1)
        ∧ wG1.get_state.getD (wG1.grid_size * wG1.grid_size + 5) 0
            = ((wG1.fruitPos.2 - wG1.snake.head.2 : Int) : ℚ) / ((wG1.grid_size : ℚ) - 1)
        ∧ (-1 ≤ wG1.get_state.getD (wG1.grid_size * wG1.grid_size + 4) 0
            ∧ wG1.get_state.getD (wG1.grid_size * wG1.grid_size + 4) 0 ≤ 1
            ∧ -1 ≤ wG1.get_state.getD (wG1.grid_size * wG1.grid_size + 5) 0
            ∧ wG1.get_state.getD (wG1.grid_size * wG1.grid_size + 5) 0 ≤ 1)) :=
  ⟨⟨by decide, by decide, by decide, by decide⟩,
    C4_observation_encoding wG1 (by decide) (by decide) (by decide) (by decide)⟩

/-- Witness for C6 at the concrete tick `wG1.update (0, 0)`. -/
theorem C6_witness :
    wG1.running = true ∧ wG1.won = false
    ∧ (((wG1.update (0, 0)).won = false →
          (((wG1.update (0, 0)).running = false ∧ (wG1.update (0, 0)).won = false)
            ↔ (wG1.snake.move.collided_with_self = true
                ∨ wG1.snake.move.collided_with_wall = true)))
        ∧ ((wG1.update (0, 0)).won = true → (wG1.update (0, 0)).running = false)) :=
  ⟨by decide, by decide, C6_death_check wG1 (0, 0) (by decide) (by decide)⟩

/-- Witness for C10 at the concrete respawn site of `wG1` (its first
move eats the fruit at (3,2) without filling the grid). -/
theorem C10_witness :
    (wG1.snake.body ≠ [] ∧ (∀ p ∈ wG1.snake.body, inBounds wG1.grid_size p)
      ∧ inBounds wG1.grid_size wG1.fruitPos
      ∧ wG1.snake.move.head = wG1.fruitPos
      ∧ wG1.effLen < wG1.grid_size * wG1.grid_size)
    ∧ ((∃ p, inBounds wG1.grid_size p ∧ p ∉ wG1.snake.move.body)
        ∧ (∀ (stream : Nat → Pos) (k fuel : Nat) (p : Pos),
            newPositionFuel stream wG1.snake.move.body k fuel = some p
              → p ∉ wG1.snake.move.body)
        ∧ (∀ p : Pos, p ∉ wG1.snake.move.body →
            newPositionFuel (fun _ => p) wG1.snake.move.body 0 1 = some p)
        ∧ (∀ n : Nat, 4 ≤ n → ∃ p, inBounds n p ∧ p ∉ (Snake.init n).body)) :=
  ⟨⟨by decide, by decide, by decide, by decide, by decide⟩,
    C10_fruit_respawn_exit wG1 (by decide) (by decide) (by decide) (by decide) (by decide)⟩

end SlytherNN
